import Mathlib

/-!
Shallow embedding of the locale subsystem of `tmdb3/locales.py`: the
case-folded code registries behind `Language` and `Country`, the `Locale`
composite with its encode/decode leniency, the comparison operators of
`LocaleBase`, the attribute-interception machinery of
`LocaleBase.__setattr__`, and the module-level `set_locale` / `get_locale`
resolver.  Python strings are `String`, Python exceptions are `Except`,
and the module-global `syslocale` slot is passed explicitly.
-/

namespace Locales

/-- Model of Python `str.lower`.  The registry only ever folds ASCII code
keys, where CPython agrees with the basic-latin `Char.toLower`. -/
def pyLower (s : String) : String := ⟨s.data.map Char.toLower⟩

/-- Model of Python `str.upper` on the same ASCII fragment. -/
def pyUpper (s : String) : String := ⟨s.data.map Char.toUpper⟩

/-- Exceptions raised by this module: `TMDBLocaleError` from
`LocaleBase.getstored`, and the `NotImplementedError` raised by
`LocaleBase.__setattr__` / `__delattr__`. -/
inductive PyExn where
  | TMDBLocaleError (msg : String)
  | NotImplementedError (msg : String)
  deriving DecidableEq, Repr

/-- ASCII apostrophe, the quote character used in the `getstored` error
message. -/
def sq : String := String.singleton (Char.ofNat 39)

/-- A constructed `Language` entity.  `lid` models CPython object identity
(`id()`): entities are allocated in module-load order, each with a fresh
id. -/
structure Language where
  lid : Nat
  ISO639_1 : String
  ISO639_2 : String
  englishname : String
  deriving DecidableEq, Repr

/-- A constructed `Country` entity, with `cid` modelling `id()`. -/
structure Country where
  cid : Nat
  alpha2 : String
  name : String
  deriving DecidableEq, Repr

/-- Seed data: the literal `Language(iso1, iso2, englishname)` calls at the
bottom of the module, in source order. -/
def languageSeed : List (String × String × String) := [
  ("ab", "abk", "Abkhazian"),
  ("aa", "aar", "Afar"),
  ("af", "afr", "Afrikaans"),
  ("ak", "aka", "Akan"),
  ("sq", "alb/sqi", "Albanian"),
  ("am", "amh", "Amharic"),
  ("ar", "ara", "Arabic"),
  ("an", "arg", "Aragonese"),
  ("hy", "arm/hye", "Armenian"),
  ("as", "asm", "Assamese"),
  ("av", "ava", "Avaric"),
  ("ae", "ave", "Avestan"),
  ("ay", "aym", "Aymara"),
  ("az", "aze", "Azerbaijani"),
  ("bm", "bam", "Bambara"),
  ("ba", "bak", "Bashkir"),
  ("eu", "baq/eus", "Basque"),
  ("be", "bel", "Belarusian"),
  ("bn", "ben", "Bengali"),
  ("bh", "bih", "Bihari languages"),
  ("bi", "bis", "Bislama"),
  ("nb", "nob", "Bokmål, Norwegian"),
  ("bs", "bos", "Bosnian"),
  ("br", "bre", "Breton"),
  ("bg", "bul", "Bulgarian"),
  ("my", "bur/mya", "Burmese"),
  ("es", "spa", "Castilian"),
  ("ca", "cat", "Catalan"),
  ("km", "khm", "Central Khmer"),
  ("ch", "cha", "Chamorro"),
  ("ce", "che", "Chechen"),
  ("ny", "nya", "Chewa"),
  ("ny", "nya", "Chichewa"),
  ("zh", "chi/zho", "Chinese"),
  ("za", "zha", "Chuang"),
  ("cu", "chu", "Church Slavic"),
  ("cu", "chu", "Church Slavonic"),
  ("cv", "chv", "Chuvash"),
  ("kw", "cor", "Cornish"),
  ("co", "cos", "Corsican"),
  ("cr", "cre", "Cree"),
  ("hr", "hrv", "Croatian"),
  ("cs", "cze/ces", "Czech"),
  ("da", "dan", "Danish"),
  ("dv", "div", "Dhivehi"),
  ("dv", "div", "Divehi"),
  ("nl", "dut/nld", "Dutch"),
  ("dz", "dzo", "Dzongkha"),
  ("en", "eng", "English"),
  ("eo", "epo", "Esperanto"),
  ("et", "est", "Estonian"),
  ("ee", "ewe", "Ewe"),
  ("fo", "fao", "Faroese"),
  ("fj", "fij", "Fijian"),
  ("fi", "fin", "Finnish"),
  ("nl", "dut/nld", "Flemish"),
  ("fr", "fre/fra", "French"),
  ("ff", "ful", "Fulah"),
  ("gd", "gla", "Gaelic"),
  ("gl", "glg", "Galician"),
  ("lg", "lug", "Ganda"),
  ("ka", "geo/kat", "Georgian"),
  ("de", "ger/deu", "German"),
  ("ki", "kik", "Gikuyu"),
  ("el", "gre/ell", "Greek, Modern (1453-)"),
  ("kl", "kal", "Greenlandic"),
  ("gn", "grn", "Guarani"),
  ("gu", "guj", "Gujarati"),
  ("ht", "hat", "Haitian"),
  ("ht", "hat", "Haitian Creole"),
  ("ha", "hau", "Hausa"),
  ("he", "heb", "Hebrew"),
  ("hz", "her", "Herero"),
  ("hi", "hin", "Hindi"),
  ("ho", "hmo", "Hiri Motu"),
  ("hu", "hun", "Hungarian"),
  ("is", "ice/isl", "Icelandic"),
  ("io", "ido", "Ido"),
  ("ig", "ibo", "Igbo"),
  ("id", "ind", "Indonesian"),
  ("ia", "ina", "Interlingua (International Auxiliary Language Association)"),
  ("ie", "ile", "Interlingue"),
  ("iu", "iku", "Inuktitut"),
  ("ik", "ipk", "Inupiaq"),
  ("ga", "gle", "Irish"),
  ("it", "ita", "Italian"),
  ("ja", "jpn", "Japanese"),
  ("jv", "jav", "Javanese"),
  ("kl", "kal", "Kalaallisut"),
  ("kn", "kan", "Kannada"),
  ("kr", "kau", "Kanuri"),
  ("ks", "kas", "Kashmiri"),
  ("kk", "kaz", "Kazakh"),
  ("ki", "kik", "Kikuyu"),
  ("rw", "kin", "Kinyarwanda"),
  ("ky", "kir", "Kirghiz"),
  ("kv", "kom", "Komi"),
  ("kg", "kon", "Kongo"),
  ("ko", "kor", "Korean"),
  ("kj", "kua", "Kuanyama"),
  ("ku", "kur", "Kurdish"),
  ("kj", "kua", "Kwanyama"),
  ("ky", "kir", "Kyrgyz"),
  ("lo", "lao", "Lao"),
  ("la", "lat", "Latin"),
  ("lv", "lav", "Latvian"),
  ("lb", "ltz", "Letzeburgesch"),
  ("li", "lim", "Limburgan"),
  ("li", "lim", "Limburger"),
  ("li", "lim", "Limburgish"),
  ("ln", "lin", "Lingala"),
  ("lt", "lit", "Lithuanian"),
  ("lu", "lub", "Luba-Katanga"),
  ("lb", "ltz", "Luxembourgish"),
  ("mk", "mac/mkd", "Macedonian"),
  ("mg", "mlg", "Malagasy"),
  ("ms", "may/msa", "Malay"),
  ("ml", "mal", "Malayalam"),
  ("dv", "div", "Maldivian"),
  ("mt", "mlt", "Maltese"),
  ("gv", "glv", "Manx"),
  ("mi", "mao/mri", "Maori"),
  ("mr", "mar", "Marathi"),
  ("mh", "mah", "Marshallese"),
  ("ro", "rum/ron", "Moldavian"),
  ("ro", "rum/ron", "Moldovan"),
  ("mn", "mon", "Mongolian"),
  ("na", "nau", "Nauru"),
  ("nv", "nav", "Navaho"),
  ("nv", "nav", "Navajo"),
  ("nd", "nde", "Ndebele, North"),
  ("nr", "nbl", "Ndebele, South"),
  ("ng", "ndo", "Ndonga"),
  ("ne", "nep", "Nepali"),
  ("nd", "nde", "North Ndebele"),
  ("se", "sme", "Northern Sami"),
  ("no", "nor", "Norwegian"),
  ("nb", "nob", "Norwegian Bokmål"),
  ("nn", "nno", "Norwegian Nynorsk"),
  ("ii", "iii", "Nuosu"),
  ("ny", "nya", "Nyanja"),
  ("nn", "nno", "Nynorsk, Norwegian"),
  ("ie", "ile", "Occidental"),
  ("oc", "oci", "Occitan (post 1500)"),
  ("oj", "oji", "Ojibwa"),
  ("cu", "chu", "Old Bulgarian"),
  ("cu", "chu", "Old Church Slavonic"),
  ("cu", "chu", "Old Slavonic"),
  ("or", "ori", "Oriya"),
  ("om", "orm", "Oromo"),
  ("os", "oss", "Ossetian"),
  ("os", "oss", "Ossetic"),
  ("pi", "pli", "Pali"),
  ("pa", "pan", "Panjabi"),
  ("ps", "pus", "Pashto"),
  ("fa", "per/fas", "Persian"),
  ("pl", "pol", "Polish"),
  ("pt", "por", "Portuguese"),
  ("pa", "pan", "Punjabi"),
  ("ps", "pus", "Pushto"),
  ("qu", "que", "Quechua"),
  ("ro", "rum/ron", "Romanian"),
  ("rm", "roh", "Romansh"),
  ("rn", "run", "Rundi"),
  ("ru", "rus", "Russian"),
  ("sm", "smo", "Samoan"),
  ("sg", "sag", "Sango"),
  ("sa", "san", "Sanskrit"),
  ("sc", "srd", "Sardinian"),
  ("gd", "gla", "Scottish Gaelic"),
  ("sr", "srp", "Serbian"),
  ("sn", "sna", "Shona"),
  ("ii", "iii", "Sichuan Yi"),
  ("sd", "snd", "Sindhi"),
  ("si", "sin", "Sinhala"),
  ("si", "sin", "Sinhalese"),
  ("sk", "slo/slk", "Slovak"),
  ("sl", "slv", "Slovenian"),
  ("so", "som", "Somali"),
  ("st", "sot", "Sotho, Southern"),
  ("nr", "nbl", "South Ndebele"),
  ("es", "spa", "Spanish"),
  ("su", "sun", "Sundanese"),
  ("sw", "swa", "Swahili"),
  ("ss", "ssw", "Swati"),
  ("sv", "swe", "Swedish"),
  ("tl", "tgl", "Tagalog"),
  ("ty", "tah", "Tahitian"),
  ("tg", "tgk", "Tajik"),
  ("ta", "tam", "Tamil"),
  ("tt", "tat", "Tatar"),
  ("te", "tel", "Telugu"),
  ("th", "tha", "Thai"),
  ("bo", "tib/bod", "Tibetan"),
  ("ti", "tir", "Tigrinya"),
  ("to", "ton", "Tonga (Tonga Islands)"),
  ("ts", "tso", "Tsonga"),
  ("tn", "tsn", "Tswana"),
  ("tr", "tur", "Turkish"),
  ("tk", "tuk", "Turkmen"),
  ("tw", "twi", "Twi"),
  ("ug", "uig", "Uighur"),
  ("uk", "ukr", "Ukrainian"),
  ("ur", "urd", "Urdu"),
  ("ug", "uig", "Uyghur"),
  ("uz", "uzb", "Uzbek"),
  ("ca", "cat", "Valencian"),
  ("ve", "ven", "Venda"),
  ("vi", "vie", "Vietnamese"),
  ("vo", "vol", "Volapük"),
  ("wa", "wln", "Walloon"),
  ("cy", "wel/cym", "Welsh"),
  ("fy", "fry", "Western Frisian"),
  ("wo", "wol", "Wolof"),
  ("xh", "xho", "Xhosa"),
  ("yi", "yid", "Yiddish"),
  ("yo", "yor", "Yoruba"),
  ("za", "zha", "Zhuang"),
  ("zu", "zul", "Zulu")]

def countrySeed : List (String × String) := [
  ("AD", "Andorra"),
  ("AE", "United Arab Emirates"),
  ("AF", "Afghanistan"),
  ("AG", "Antigua and Barbuda"),
  ("AI", "Anguilla"),
  ("AL", "Albania"),
  ("AM", "Armenia"),
  ("AO", "Angola"),
  ("AQ", "Antarctica"),
  ("AR", "Argentina"),
  ("AS", "American Samoa"),
  ("AT", "Austria"),
  ("AU", "Australia"),
  ("AW", "Aruba"),
  ("AX", "Åland Islands"),
  ("AZ", "Azerbaijan"),
  ("BA", "Bosnia and Herzegovina"),
  ("BB", "Barbados"),
  ("BD", "Bangladesh"),
  ("BE", "Belgium"),
  ("BF", "Burkina Faso"),
  ("BG", "Bulgaria"),
  ("BH", "Bahrain"),
  ("BI", "Burundi"),
  ("BJ", "Benin"),
  ("BL", "Saint Barthélemy"),
  ("BM", "Bermuda"),
  ("BN", "Brunei Darussalam"),
  ("BO", "Bolivia (Plurinational State of)"),
  ("BQ", "Bonaire, Sint Eustatius and Saba"),
  ("BR", "Brazil"),
  ("BS", "Bahamas"),
  ("BT", "Bhutan"),
  ("BV", "Bouvet Island"),
  ("BW", "Botswana"),
  ("BY", "Belarus"),
  ("BZ", "Belize"),
  ("CA", "Canada"),
  ("CC", "Cocos (Keeling) Islands"),
  ("CD", "Congo, Democratic Republic of the"),
  ("CF", "Central African Republic"),
  ("CG", "Congo"),
  ("CH", "Switzerland"),
  ("CI", "Côte d\x27Ivoire"),
  ("CK", "Cook Islands"),
  ("CL", "Chile"),
  ("CM", "Cameroon"),
  ("CN", "China"),
  ("CO", "Colombia"),
  ("CR", "Costa Rica"),
  ("CU", "Cuba"),
  ("CV", "Cabo Verde"),
  ("CW", "Curaçao"),
  ("CX", "Christmas Island"),
  ("CY", "Cyprus"),
  ("CZ", "Czechia"),
  ("DE", "Germany"),
  ("DJ", "Djibouti"),
  ("DK", "Denmark"),
  ("DM", "Dominica"),
  ("DO", "Dominican Republic"),
  ("DZ", "Algeria"),
  ("EC", "Ecuador"),
  ("EE", "Estonia"),
  ("EG", "Egypt"),
  ("EH", "Western Sahara"),
  ("ER", "Eritrea"),
  ("ES", "Spain"),
  ("ET", "Ethiopia"),
  ("FI", "Finland"),
  ("FJ", "Fiji"),
  ("FK", "Falkland Islands (Malvinas)"),
  ("FM", "Micronesia (Federated States of)"),
  ("FO", "Faroe Islands"),
  ("FR", "France"),
  ("GA", "Gabon"),
  ("GB", "United Kingdom of Great Britain and Northern Ireland"),
  ("GD", "Grenada"),
  ("GE", "Georgia"),
  ("GF", "French Guiana"),
  ("GG", "Guernsey"),
  ("GH", "Ghana"),
  ("GI", "Gibraltar"),
  ("GL", "Greenland"),
  ("GM", "Gambia"),
  ("GN", "Guinea"),
  ("GP", "Guadeloupe"),
  ("GQ", "Equatorial Guinea"),
  ("GR", "Greece"),
  ("GS", "South Georgia and the South Sandwich Islands"),
  ("GT", "Guatemala"),
  ("GU", "Guam"),
  ("GW", "Guinea-Bissau"),
  ("GY", "Guyana"),
  ("HK", "Hong Kong"),
  ("HM", "Heard Island and McDonald Islands"),
  ("HN", "Honduras"),
  ("HR", "Croatia"),
  ("HT", "Haiti"),
  ("HU", "Hungary"),
  ("ID", "Indonesia"),
  ("IE", "Ireland"),
  ("IL", "Israel"),
  ("IM", "Isle of Man"),
  ("IN", "India"),
  ("IO", "British Indian Ocean Territory"),
  ("IQ", "Iraq"),
  ("IR", "Iran (Islamic Republic of)"),
  ("IS", "Iceland"),
  ("IT", "Italy"),
  ("JE", "Jersey"),
  ("JM", "Jamaica"),
  ("JO", "Jordan"),
  ("JP", "Japan"),
  ("KE", "Kenya"),
  ("KG", "Kyrgyzstan"),
  ("KH", "Cambodia"),
  ("KI", "Kiribati"),
  ("KM", "Comoros"),
  ("KN", "Saint Kitts and Nevis"),
  ("KP", "Korea (Democratic People\x27s Republic of)"),
  ("KR", "Korea, Republic of"),
  ("KW", "Kuwait"),
  ("KY", "Cayman Islands"),
  ("KZ", "Kazakhstan"),
  ("LA", "Lao People\x27s Democratic Republic"),
  ("LB", "Lebanon"),
  ("LC", "Saint Lucia"),
  ("LI", "Liechtenstein"),
  ("LK", "Sri Lanka"),
  ("LR", "Liberia"),
  ("LS", "Lesotho"),
  ("LT", "Lithuania"),
  ("LU", "Luxembourg"),
  ("LV", "Latvia"),
  ("LY", "Libya"),
  ("MA", "Morocco"),
  ("MC", "Monaco"),
  ("MD", "Moldova, Republic of"),
  ("ME", "Montenegro"),
  ("MF", "Saint Martin (French part)"),
  ("MG", "Madagascar"),
  ("MH", "Marshall Islands"),
  ("MK", "North Macedonia"),
  ("ML", "Mali"),
  ("MM", "Myanmar"),
  ("MN", "Mongolia"),
  ("MO", "Macao"),
  ("MP", "Northern Mariana Islands"),
  ("MQ", "Martinique"),
  ("MR", "Mauritania"),
  ("MS", "Montserrat"),
  ("MT", "Malta"),
  ("MU", "Mauritius"),
  ("MV", "Maldives"),
  ("MW", "Malawi"),
  ("MX", "Mexico"),
  ("MY", "Malaysia"),
  ("MZ", "Mozambique"),
  ("NA", "Namibia"),
  ("NC", "New Caledonia"),
  ("NE", "Niger"),
  ("NF", "Norfolk Island"),
  ("NG", "Nigeria"),
  ("NI", "Nicaragua"),
  ("NL", "Netherlands[note 1]"),
  ("NO", "Norway"),
  ("NP", "Nepal"),
  ("NR", "Nauru"),
  ("NU", "Niue"),
  ("NZ", "New Zealand"),
  ("OM", "Oman"),
  ("PA", "Panama"),
  ("PE", "Peru"),
  ("PF", "French Polynesia"),
  ("PG", "Papua New Guinea"),
  ("PH", "Philippines"),
  ("PK", "Pakistan"),
  ("PL", "Poland"),
  ("PM", "Saint Pierre and Miquelon"),
  ("PN", "Pitcairn"),
  ("PR", "Puerto Rico"),
  ("PS", "Palestine, State of"),
  ("PT", "Portugal"),
  ("PW", "Palau"),
  ("PY", "Paraguay"),
  ("QA", "Qatar"),
  ("RE", "Réunion"),
  ("RO", "Romania"),
  ("RS", "Serbia"),
  ("RU", "Russian Federation"),
  ("RW", "Rwanda"),
  ("SA", "Saudi Arabia"),
  ("SB", "Solomon Islands"),
  ("SC", "Seychelles"),
  ("SD", "Sudan"),
  ("SE", "Sweden"),
  ("SG", "Singapore"),
  ("SH", "Saint Helena, Ascension and Tristan da Cunha"),
  ("SI", "Slovenia"),
  ("SJ", "Svalbard and Jan Mayen"),
  ("SK", "Slovakia"),
  ("SL", "Sierra Leone"),
  ("SM", "San Marino"),
  ("SN", "Senegal"),
  ("SO", "Somalia"),
  ("SR", "Suriname"),
  ("SS", "South Sudan"),
  ("ST", "Sao Tome and Principe"),
  ("SV", "El Salvador"),
  ("SX", "Sint Maarten (Dutch part)"),
  ("SY", "Syrian Arab Republic"),
  ("SZ", "Eswatini"),
  ("TC", "Turks and Caicos Islands"),
  ("TD", "Chad"),
  ("TF", "French Southern Territories"),
  ("TG", "Togo"),
  ("TH", "Thailand"),
  ("TJ", "Tajikistan"),
  ("TK", "Tokelau"),
  ("TL", "Timor-Leste"),
  ("TM", "Turkmenistan"),
  ("TN", "Tunisia"),
  ("TO", "Tonga"),
  ("TR", "Turkey"),
  ("TT", "Trinidad and Tobago"),
  ("TV", "Tuvalu"),
  ("TW", "Taiwan, Province of China [note 2]"),
  ("TZ", "Tanzania, United Republic of"),
  ("UA", "Ukraine"),
  ("UG", "Uganda"),
  ("UM", "United States Minor Outlying Islands"),
  ("US", "United States of America"),
  ("UY", "Uruguay"),
  ("UZ", "Uzbekistan"),
  ("VA", "Holy See"),
  ("VC", "Saint Vincent and the Grenadines"),
  ("VE", "Venezuela (Bolivarian Republic of)"),
  ("VG", "Virgin Islands (British)"),
  ("VI", "Virgin Islands (U.S.)"),
  ("VN", "Viet Nam"),
  ("VU", "Vanuatu"),
  ("WF", "Wallis and Futuna"),
  ("WS", "Samoa"),
  ("YE", "Yemen"),
  ("YT", "Mayotte"),
  ("ZA", "South Africa"),
  ("ZM", "Zambia"),
  ("ZW", "Zimbabwe")]

/-- The `Language` entities in allocation order (one per seed row). -/
def languages : List Language :=
  languageSeed.enum.map (fun p => ⟨p.1, p.2.1, p.2.2.1, p.2.2.2⟩)

/-- The `Country` entities in allocation order. -/
def countries : List Country :=
  countrySeed.enum.map (fun p => ⟨p.1, p.2.1, p.2.2⟩)

/-- Python dict modelled as an association list.  Insertion places the new
binding at the head, so `List.lookup` sees the most recent write, which is
exactly the observable overwrite semantics of a dict. -/
abbrev Dict (α : Type) := List (String × α)

/-- Dict assignment `d[k] = v`. -/
def dictInsert (k : String) (v : α) (d : Dict α) : Dict α := (k, v) :: d

/-- Registration loop of `LocaleBase.__init__`: each key is stored
lower-cased, in order. -/
def registerKeys (e : α) (keys : List String) (d : Dict α) : Dict α :=
  keys.foldl (fun d k => dictInsert (pyLower k) e d) d

/-- Contents of `Language._stored` after module load: every
`Language(iso1, iso2, ename)` call registers the new entity under `iso1`
and `iso2`. -/
def languageStored : Dict Language :=
  languages.foldl (fun d l => registerKeys l [l.ISO639_1, l.ISO639_2] d) []

/-- Contents of `Country._stored` after module load: every
`Country(alpha2, cname)` call registers the new entity under `alpha2`. -/
def countryStored : Dict Country :=
  countries.foldl (fun d c => registerKeys c [c.alpha2] d) []

/-- A Python value that may be passed where a registry key is expected:
`None`, a string, an already-constructed entity, or an int (such as the
`-1` default of `get_locale`). -/
inductive Key where
  | pynone
  | str (s : String)
  | lang (l : Language)
  | ctry (c : Country)
  | int (n : Int)
  deriving DecidableEq, Repr

/-- Python `str()` of a key value: `Language.__str__` returns `ISO639_1`,
`Country.__str__` returns `alpha2`, and `str(None)` is the literal
`None`. -/
def Key.pyStr : Key → String
  | .pynone => "None"
  | .str s => s
  | .lang l => l.ISO639_1
  | .ctry c => c.alpha2
  | .int n => toString n

/-- Whether the value has a `lower()` method: among the values above only
`str` does, so `key.lower()` raises `AttributeError` on the rest. -/
def Key.hasLower : Key → Bool
  | .str _ => true
  | _ => false

/-- Message of the `TMDBLocaleError` raised by `LocaleBase.getstored`,
quoting `str(key)` and the class name. -/
def unknownCodeMsg (key : Key) (clsName : String) : String :=
  sq ++ key.pyStr ++ sq ++ " is not a known valid " ++ clsName ++ " code."

/-- Embedding of `Language.getstored`: `None` is returned as-is; otherwise
the body runs `cls._stored[key.lower()]` under a bare `except:`, so both a
missing key and the `AttributeError` from `key.lower()` on a non-string
are converted into a `TMDBLocaleError` naming `str(key)`. -/
def Language.getstored (key : Key) : Except PyExn (Option Language) :=
  match key with
  | .pynone => .ok none
  | .str s =>
    match List.lookup (pyLower s) languageStored with
    | some e => .ok (some e)
    | none => .error (.TMDBLocaleError (unknownCodeMsg (.str s) "Language"))
  | k => .error (.TMDBLocaleError (unknownCodeMsg k "Language"))

/-- Embedding of `Country.getstored` (same classmethod, `Country` registry
and class name). -/
def Country.getstored (key : Key) : Except PyExn (Option Country) :=
  match key with
  | .pynone => .ok none
  | .str s =>
    match List.lookup (pyLower s) countryStored with
    | some e => .ok (some e)
    | none => .error (.TMDBLocaleError (unknownCodeMsg (.str s) "Country"))
  | k => .error (.TMDBLocaleError (unknownCodeMsg k "Country"))

/-- A constructed `Locale` value: resolved optional language and country
references plus the encoding string. -/
structure Locale where
  language : Option Language
  country : Option Country
  encoding : String
  deriving DecidableEq, Repr

/-- Python truthiness of an optional string: `None` and the empty string
are falsy.  Used by `encoding if encoding else "latin-1"` and by the
`(not language) or (not country)` test in `set_locale`. -/
def truthyOptStr : Option String → Bool
  | none => false
  | some s => s != ""

/-- Embedding of `Locale.__init__`: both parts are resolved through the
registries (errors propagate), and a falsy encoding defaults to
`latin-1`.  No alias keys are ever passed inside this module, so the
registration loop of the base constructor is empty. -/
def Locale.init (language country : Key) (encoding : Option String) :
    Except PyExn Locale := do
  let l ← Language.getstored language
  let c ← Country.getstored country
  .ok { language := l, country := c,
        encoding := if truthyOptStr encoding then encoding.getD "latin-1" else "latin-1" }

/-- Rendering of the optional language reference inside an f-string:
`str(None)` is `None`, otherwise `Language.__str__`. -/
def strOfOptLanguage : Option Language → String
  | none => "None"
  | some l => l.ISO639_1

/-- Rendering of the optional country reference inside an f-string. -/
def strOfOptCountry : Option Country → String
  | none => "None"
  | some c => c.alpha2

/-- Embedding of `Locale.__str__`. -/
def Locale.pyStr (l : Locale) : String :=
  strOfOptLanguage l.language ++ "_" ++ strOfOptCountry l.country

/-- Values flowing through `Locale.encode` / `Locale.decode`: text (`str`),
raw bytes, or any other object.  Only text has an `encode` method and only
bytes a `decode` method; on everything else the attribute access raises
`AttributeError`, which both methods catch and turn into passthrough. -/
inductive PyDat where
  | text (s : String)
  | bytes (b : List Nat)
  | other (tag : Nat)
  deriving DecidableEq, Repr

/-- Exception classes a host codec call can raise. -/
inductive CodecExn where
  | unicodeEncodeError
  | unicodeDecodeError
  | otherError
  deriving DecidableEq, Repr

/-- Abstract model of the host codec registry: `enc nm t` models
`t.encode(nm)` on text `t` and `dec nm b` models `b.decode(nm)` on raw
bytes `b`. -/
structure CodecModel where
  enc : String → String → Except CodecExn (List Nat)
  dec : String → List Nat → Except CodecExn String

/-- Embedding of `Locale.encode`: catches `AttributeError` (non-text
input, returned unchanged) and `UnicodeDecodeError` (input returned
unchanged); every other exception propagates. -/
def Locale.encode (cm : CodecModel) (l : Locale) (dat : PyDat) :
    Except CodecExn PyDat :=
  match dat with
  | .text s =>
    match cm.enc l.encoding s with
    | .ok b => .ok (.bytes b)
    | .error .unicodeDecodeError => .ok (.text s)
    | .error e => .error e
  | d => .ok d

/-- Embedding of `Locale.decode`: catches `AttributeError` (non-bytes
input, returned unchanged) and `UnicodeEncodeError` (input returned
unchanged); every other exception propagates. -/
def Locale.decode (cm : CodecModel) (l : Locale) (dat : PyDat) :
    Except CodecExn PyDat :=
  match dat with
  | .bytes b =>
    match cm.dec l.encoding b with
    | .ok s => .ok (.text s)
    | .error .unicodeEncodeError => .ok (.bytes b)
    | .error e => .error e
  | d => .ok d

/-- Host environment as returned by `locale.getdefaultlocale()`. -/
structure Host where
  sysloc : Option String
  sysenc : Option String
  deriving DecidableEq, Repr

/-- The `dat` pair computed inside `set_locale` when `language` or
`country` is falsy: the stringified current locale when one exists, else
the host locale split at the underscore when it contains one, else the
hard-coded `("en", "US")`. -/
def set_locale_base (host : Host) (cur : Option Locale) : String × String :=
  match cur with
  | some loc => (strOfOptLanguage loc.language, strOfOptCountry loc.country)
  | none =>
    match host.sysloc with
    | none => ("en", "US")
    | some s =>
      if s.contains '_' then ((s.splitOn "_").getD 0 "", (s.splitOn "_").getD 1 "")
      else ("en", "US")

/-- Embedding of `set_locale`.  The module-global `syslocale` is passed in
as `cur`; the returned value is the locale the call installs into that
global.  The `LocaleBase.fallthrough = fallthrough` flag write has no
further effect in the module and is modelled by taking the argument. -/
def set_locale (host : Host) (cur : Option Locale)
    (language country : Option String) (_ft : Bool) : Except PyExn Locale :=
  let args : String × String :=
    if !truthyOptStr language || !truthyOptStr country then
      let dat := set_locale_base host cur
      (match language with | none => dat.1 | some s => s,
       match country with | none => dat.2 | some s => s)
    else
      (language.getD "", country.getD "")
  Locale.init (.str args.1) (.str args.2) host.sysenc

/-- The resolution rule in the words of the specification: an explicitly
supplied argument overrides; a missing one takes the corresponding field
of the base pair, which is the current locale (as strings) when one
exists, else the parsed host locale, else `("en", "US")`. -/
def specResolve (host : Host) (cur : Option Locale)
    (language country : Option String) : String × String :=
  let base := set_locale_base host cur
  (language.getD base.1, country.getD base.2)

/-- Entity view of the default arguments of `get_locale`: the stored
optional references are passed back as raw values (`None` or the entity
itself, not its code string). -/
def keyOfOptLanguage : Option Language → Key
  | none => .pynone
  | some l => .lang l

/-- Entity view of the stored optional country reference. -/
def keyOfOptCountry : Option Country → Key
  | none => .pynone
  | some c => .ctry c

/-- Whether the key value is a registry entity. -/
def Key.isEntity : Key → Bool
  | .lang _ => true
  | .ctry _ => true
  | _ => false

/-- Object identity between key values (`id(a) == id(b)`). -/
def Key.sameInstance : Key → Key → Bool
  | .lang a, .lang b => a.lid == b.lid
  | .ctry a, .ctry b => a.cid == b.cid
  | _, _ => false

/-- Python `==` between the values that can appear as `get_locale`
arguments: builtins compare by value and defer across types; when either
side is a registry entity, `LocaleBase.__eq__` runs and compares identity
or the `str()` forms. -/
def pyEqKey (a b : Key) : Bool :=
  if a.isEntity || b.isEntity then a.sameInstance b || (a.pyStr == b.pyStr)
  else
    match a, b with
    | .pynone, .pynone => true
    | .str s, .str t => s == t
    | .int m, .int n => m == n
    | _, _ => false

/-- Embedding of `get_locale`.  Both parameters default to the int `-1`;
the first test is the chained comparison `language == country == -1`, and
the supplement step is the `if language == -1: ... elif country == -1:`
ladder, which copies the stored entity references (not their code
strings) into the `Locale(...)` call. -/
def get_locale (host : Host) (cur : Option Locale)
    (language country : Key) : Except PyExn Locale := do
  let loc ← match cur with
    | none => Locale.init .pynone .pynone host.sysenc
    | some l => pure l
  if pyEqKey language country && pyEqKey country (.int (-1)) then
    return loc
  let language2 := if pyEqKey language (.int (-1)) then keyOfOptLanguage loc.language
    else language
  let country2 := if pyEqKey language (.int (-1)) then country
    else if pyEqKey country (.int (-1)) then keyOfOptCountry loc.country
    else country
  Locale.init language2 country2 (some loc.encoding)

/-- The id and str view of an object, the only data `LocaleBase.__lt__`,
`__gt__` and `__eq__` consult. -/
structure PyObjView where
  oid : Nat
  ostr : String
  deriving DecidableEq, Repr

/-- Python string comparison `a < b`: lexicographic on code points, a
strict prefix being smaller. -/
def charListLt : List Char → List Char → Bool
  | [], [] => false
  | [], _ :: _ => true
  | _ :: _, [] => false
  | a :: as, b :: bs =>
    if a < b then true
    else if b < a then false
    else charListLt as bs

/-- Embedding of `LocaleBase.__lt__`:
`(id(self) != id(other)) and (str(self) > str(other))`. -/
def pyLt (a b : PyObjView) : Bool :=
  a.oid != b.oid && charListLt b.ostr.data a.ostr.data

/-- Embedding of `LocaleBase.__gt__`:
`(id(self) != id(other)) and (str(self) < str(other))`. -/
def pyGt (a b : PyObjView) : Bool :=
  a.oid != b.oid && charListLt a.ostr.data b.ostr.data

/-- Embedding of `LocaleBase.__eq__`:
`(id(self) == id(other)) or (str(self) == str(other))`. -/
def pyEqObj (a b : PyObjView) : Bool := a.oid == b.oid || a.ostr == b.ostr

/-- View of a `Language` under `id()` and `str()`. -/
def Language.view (l : Language) : PyObjView := ⟨l.lid, l.ISO639_1⟩

/-- View of a `Country` under `id()` and `str()`. -/
def Country.view (c : Country) : PyObjView := ⟨c.cid, c.alpha2⟩

/-- Python attribute values occurring in the entity constructors. -/
inductive PyVal where
  | bool (b : Bool)
  | str (s : String)
  deriving DecidableEq, Repr

/-- Python truthiness of an attribute value. -/
def pyTruthyVal : PyVal → Bool
  | .bool b => b
  | .str s => s != ""

/-- Slot storage of one object, as an attribute dictionary. -/
abbrev Attrs := List (String × PyVal)

/-- Embedding of `LocaleBase.__setattr__`.  The guard evaluates
`getattr(self, ..., False)` on the attribute literally named
`__immutable`; the slot declared as `__immutable` inside
`class LocaleBase` is stored under its name-mangled form
`_LocaleBase__immutable` (CPython mangles both the `__slots__` entry and
the write in `LocaleBase.__init__`), and `getattr` with a string argument
performs no mangling. -/
def setattrLB (clsName : String) (a : Attrs) (nm : String) (v : PyVal) :
    Except PyExn Attrs :=
  if pyTruthyVal ((List.lookup "__immutable" a).getD (.bool false)) then
    .error (.NotImplementedError (clsName ++ " does not support modification."))
  else .ok ((nm, v) :: a)

/-- Embedding of `LocaleBase.__delattr__`, with the same guard; the actual
deletion is `object.__delattr__`, which clears the slot. -/
def delattrLB (clsName : String) (a : Attrs) (nm : String) :
    Except PyExn Attrs :=
  if pyTruthyVal ((List.lookup "__immutable" a).getD (.bool false)) then
    .error (.NotImplementedError (clsName ++ " does not support modification."))
  else .ok (a.filter (fun p => p.1 != nm))

/-- Attribute writes performed by `Language(iso1, iso2, ename)`: the three
field writes of `Language.__init__`, then `self.__immutable = True` in
`LocaleBase.__init__`, compiled to the mangled slot name.  Registration
touches the class-level `_stored` dict, not instance attributes. -/
def mkLanguageObj (iso1 iso2 ename : String) : Except PyExn Attrs := do
  let a ← setattrLB "Language" [] "ISO639_1" (.str iso1)
  let a ← setattrLB "Language" a "ISO639_2" (.str iso2)
  let a ← setattrLB "Language" a "englishname" (.str ename)
  setattrLB "Language" a "_LocaleBase__immutable" (.bool true)

/-- The registered English `Language` entity. -/
def enLanguage : Language :=
  (languages.find? (fun l => l.ISO639_1 == "en")).getD ⟨0, "", "", ""⟩

/-- The registered French `Language` entity. -/
def frLanguage : Language :=
  (languages.find? (fun l => l.ISO639_1 == "fr")).getD ⟨0, "", "", ""⟩

/-- The `Language` entity constructed by the `Chewa` seed row. -/
def chewaLanguage : Language :=
  (languages.find? (fun l => l.englishname == "Chewa")).getD ⟨0, "", "", ""⟩

/-- The `Language` entity constructed by the `Chichewa` seed row. -/
def chichewaLanguage : Language :=
  (languages.find? (fun l => l.englishname == "Chichewa")).getD ⟨0, "", "", ""⟩

/-- The registered United States `Country` entity. -/
def usCountry : Country :=
  (countries.find? (fun c => c.alpha2 == "US")).getD ⟨0, "", ""⟩

/-- A host with no discoverable locale or encoding
(`locale.getdefaultlocale()` returning `(None, None)`). -/
def hostFresh : Host := ⟨none, none⟩

/-- The current locale installed by `set_locale("en", "US")` on a fresh
host. -/
def locEnUS : Locale := ⟨some enLanguage, some usCountry, "latin-1"⟩

/-- A codec model whose encode direction raises `UnicodeDecodeError` and
whose decode direction raises `UnicodeEncodeError`, exercising the two
swallowed exception classes. -/
def cmSwallow : CodecModel :=
  ⟨fun _ _ => .error .unicodeDecodeError, fun _ _ => .error .unicodeEncodeError⟩

/-- A codec model that always raises an unrelated exception, exercising
the propagating classes. -/
def cmHard : CodecModel :=
  ⟨fun _ _ => .error .otherError, fun _ _ => .error .otherError⟩

/-- A concrete locale value used to drive the codec contract. -/
def locW : Locale := ⟨none, none, "latin-1"⟩

/-- Slot contents of the object built by `Language("en", "eng", "English")`
once construction has finished: the three fields plus the mangled
immutable flag. -/
def enObjAttrs : Attrs :=
  [("_LocaleBase__immutable", .bool true), ("englishname", .str "English"),
   ("ISO639_2", .str "eng"), ("ISO639_1", .str "en")]

end Locales

namespace Locales

set_option maxRecDepth 16384

/-- Evaluating `Char.ofNat` below the surrogate range recovers the code
point. -/
theorem char_toNat_ofNat_valid (n : Nat) (h : n < 55296) :
    (Char.ofNat n).toNat = n := by
  have hv : n.isValidChar := Or.inl h
  rw [Char.ofNat, dif_pos hv]
  simp [Char.ofNatAux, Char.toNat, UInt32.toNat]

/-- Lower-casing after upper-casing folds to plain lower-casing. -/
theorem toLower_toUpper (c : Char) : c.toUpper.toLower = c.toLower := by
  unfold Char.toUpper Char.toLower
  by_cases h : c.toNat ≥ 97 ∧ c.toNat ≤ 122
  · rw [if_pos h]
    have h1 : (Char.ofNat (c.toNat - 32)).toNat = c.toNat - 32 := by
      apply char_toNat_ofNat_valid
      omega
    rw [h1]
    rw [if_pos (by omega), if_neg (by omega)]
    have h2 : c.toNat - 32 + 32 = c.toNat := by omega
    rw [h2, Char.ofNat_toNat]
  · rw [if_neg h]

/-- Lower-casing is idempotent. -/
theorem toLower_toLower (c : Char) : c.toLower.toLower = c.toLower := by
  unfold Char.toLower
  by_cases h : c.toNat ≥ 65 ∧ c.toNat ≤ 90
  · rw [if_pos h]
    have h1 : (Char.ofNat (c.toNat + 32)).toNat = c.toNat + 32 := by
      apply char_toNat_ofNat_valid
      omega
    rw [h1, if_neg (by omega)]
  · rw [if_neg h]
    rw [if_neg h]

/-- String-level corollary: `pyLower` absorbs a preceding `pyUpper`. -/
theorem pyLower_pyUpper (s : String) : pyLower (pyUpper s) = pyLower s := by
  show String.mk ((s.data.map Char.toUpper).map Char.toLower) =
    String.mk (s.data.map Char.toLower)
  rw [List.map_map,
    show Char.toLower ∘ Char.toUpper = Char.toLower from funext toLower_toUpper]

/-- String-level corollary: `pyLower` is idempotent. -/
theorem pyLower_pyLower (s : String) : pyLower (pyLower s) = pyLower s := by
  show String.mk ((s.data.map Char.toLower).map Char.toLower) =
    String.mk (s.data.map Char.toLower)
  rw [List.map_map,
    show Char.toLower ∘ Char.toLower = Char.toLower from funext toLower_toLower]

/-- The boolean string comparison agrees with the lexicographic order on
the underlying character lists. -/
theorem charListLt_iff (as bs : List Char) :
    charListLt as bs = true ↔ List.Lex (· < ·) as bs := by
  induction as generalizing bs with
  | nil =>
    cases bs with
    | nil =>
      simp [charListLt]
    | cons b bs =>
      simp [charListLt]
      exact List.Lex.nil
  | cons a as ih =>
    cases bs with
    | nil =>
      simp [charListLt]
    | cons b bs =>
      rcases lt_trichotomy a b with hab | heq | hba
      · simp [charListLt, hab]
        exact List.Lex.rel hab
      · subst heq
        simp [charListLt, lt_irrefl]
        rw [ih]
        constructor
        · intro h
          exact List.Lex.cons h
        · intro h
          cases h with
          | cons h1 => exact h1
          | rel h1 => exact absurd h1 (lt_irrefl a)
      · simp [charListLt, lt_asymm hba, hba]
        intro h
        cases h with
        | cons h1 => exact absurd hba (lt_irrefl a)
        | rel h1 => exact absurd h1 (lt_asymm hba)

/-- Claim C3: for entities and locales, `a < b` holds iff the two are
different instances and `str(a) > str(b)`, and `a > b` iff different
instances and `str(a) < str(b)`; for the distinct registered `Language`
entities with str forms `en` and `fr`, `a > b` is true and `a < b` is
false, and self-comparison is false in both directions. -/
theorem ordering_inverted_lexicographic :
    (∀ a b : PyObjView, pyLt a b = true ↔ a.oid ≠ b.oid ∧ b.ostr < a.ostr) ∧
    (∀ a b : PyObjView, pyGt a b = true ↔ a.oid ≠ b.oid ∧ a.ostr < b.ostr) ∧
    (enLanguage.lid ≠ frLanguage.lid ∧
      pyGt enLanguage.view frLanguage.view = true ∧
      pyLt enLanguage.view frLanguage.view = false) ∧
    (∀ a : PyObjView, pyLt a a = false ∧ pyGt a a = false) := by
  refine ⟨?_, ?_, ⟨by decide, by rfl, by rfl⟩, ?_⟩
  · intro a b
    rw [String.lt_iff_toList_lt]
    simp only [pyLt, Bool.and_eq_true, bne_iff_ne, ne_eq, charListLt_iff]
    exact and_congr Iff.rfl Iff.rfl
  · intro a b
    rw [String.lt_iff_toList_lt]
    simp only [pyGt, Bool.and_eq_true, bne_iff_ne, ne_eq, charListLt_iff]
    exact and_congr Iff.rfl Iff.rfl
  · intro a
    simp [pyLt, pyGt]

/-- Witness for C3 at concrete inputs. -/
theorem ordering_inverted_lexicographic_witness :
    pyLt ⟨0, "fr"⟩ ⟨1, "en"⟩ = true ∧ pyGt ⟨0, "en"⟩ ⟨1, "fr"⟩ = true :=
  ⟨(ordering_inverted_lexicographic.1 ⟨0, "fr"⟩ ⟨1, "en"⟩).mpr
      ⟨by decide, String.lt_iff_toList_lt.mpr
        ((charListLt_iff "en".data "fr".data).mp rfl)⟩,
    (ordering_inverted_lexicographic.2.1 ⟨0, "en"⟩ ⟨1, "fr"⟩).mpr
      ⟨by decide, String.lt_iff_toList_lt.mpr
        ((charListLt_iff "en".data "fr".data).mp rfl)⟩⟩

/-- Claim C8: two instances are equal iff they are the same instance or
their string forms agree; the two distinct `ny` seed rows produce
distinct instances that compare equal. -/
theorem equality_by_identity_or_string :
    (∀ a b : PyObjView, pyEqObj a b = true ↔ a.oid = b.oid ∨ a.ostr = b.ostr) ∧
    (∀ a : PyObjView, pyEqObj a a = true) ∧
    (chewaLanguage.lid ≠ chichewaLanguage.lid ∧
      chewaLanguage.ISO639_1 = chichewaLanguage.ISO639_1 ∧
      pyEqObj chewaLanguage.view chichewaLanguage.view = true) := by
  refine ⟨?_, ?_, by decide, by rfl, by rfl⟩
  · intro a b
    simp [pyEqObj]
  · intro a
    simp [pyEqObj]

/-- Witness for C8 at concrete inputs. -/
theorem equality_by_identity_or_string_witness :
    pyEqObj ⟨0, "aa"⟩ ⟨1, "aa"⟩ = true :=
  (equality_by_identity_or_string.1 ⟨0, "aa"⟩ ⟨1, "aa"⟩).mpr (Or.inr rfl)

/-- Claim C9: the string form of a `Locale` is the language primary code,
an underscore, and the country primary code, a null part rendering as the
literal `None`; `Locale("en","US","utf-8")` stringifies as `en_US` and a
doubly-null locale as `None_None`. -/
theorem locale_string_form :
    (∀ (l : Language) (c : Country) (e : String),
      Locale.pyStr ⟨some l, some c, e⟩ = l.ISO639_1 ++ "_" ++ c.alpha2) ∧
    (∀ (c : Country) (e : String),
      Locale.pyStr ⟨none, some c, e⟩ = "None" ++ "_" ++ c.alpha2) ∧
    (∀ (l : Language) (e : String),
      Locale.pyStr ⟨some l, none, e⟩ = l.ISO639_1 ++ "_" ++ "None") ∧
    (∀ e : String, Locale.pyStr ⟨none, none, e⟩ = "None_None") ∧
    (Locale.init (.str "en") (.str "US") (some "utf-8")).toOption.map
      Locale.pyStr = some "en_US" ∧
    (Locale.init .pynone .pynone (some "utf-8")).toOption.map
      Locale.pyStr = some "None_None" := by
  refine ⟨fun l c e => rfl, fun c e => rfl, fun l e => rfl, ?_, rfl, rfl⟩
  intro e
  rfl

/-- Witness for C9 at concrete inputs. -/
theorem locale_string_form_witness :
    Locale.pyStr ⟨some enLanguage, some usCountry, "utf-8"⟩ =
      enLanguage.ISO639_1 ++ "_" ++ usCountry.alpha2 :=
  locale_string_form.1 enLanguage usCountry "utf-8"

/-- Claim C4: lookup of `None` returns `None` without error for both
registries; a non-empty unregistered key fails with a `TMDBLocaleError`
whose message names the offending key and the entity kind; a registered
key returns the stored entity. -/
theorem getstored_null_and_unknown :
    Language.getstored .pynone = .ok none ∧
    Country.getstored .pynone = .ok none ∧
    (∀ s : String, s ≠ "" → List.lookup (pyLower s) languageStored = none →
      Language.getstored (.str s) =
        .error (.TMDBLocaleError (unknownCodeMsg (.str s) "Language"))) ∧
    (∀ s : String, unknownCodeMsg (.str s) "Language" =
      sq ++ s ++ sq ++ " is not a known valid Language code.") ∧
    (∀ (s : String) (e : Language),
      List.lookup (pyLower s) languageStored = some e →
        Language.getstored (.str s) = .ok (some e)) ∧
    (∀ s : String, s ≠ "" → List.lookup (pyLower s) countryStored = none →
      Country.getstored (.str s) =
        .error (.TMDBLocaleError (unknownCodeMsg (.str s) "Country"))) ∧
    (∀ s : String, unknownCodeMsg (.str s) "Country" =
      sq ++ s ++ sq ++ " is not a known valid Country code.") ∧
    (∀ (s : String) (e : Country),
      List.lookup (pyLower s) countryStored = some e →
        Country.getstored (.str s) = .ok (some e)) := by
  refine ⟨rfl, rfl, ?_, ?_, ?_, ?_, ?_, ?_⟩
  · intro s _ h
    simp [Language.getstored, h]
  · intro s
    show sq ++ s ++ sq ++ " is not a known valid " ++ "Language" ++ " code." = _
    rw [String.append_assoc (sq ++ s ++ sq ++ " is not a known valid ")
        "Language" " code.",
      String.append_assoc (sq ++ s ++ sq) " is not a known valid "
        ("Language" ++ " code.")]
    rfl
  · intro s e h
    simp [Language.getstored, h]
  · intro s _ h
    simp [Country.getstored, h]
  · intro s
    show sq ++ s ++ sq ++ " is not a known valid " ++ "Country" ++ " code." = _
    rw [String.append_assoc (sq ++ s ++ sq ++ " is not a known valid ")
        "Country" " code.",
      String.append_assoc (sq ++ s ++ sq) " is not a known valid "
        ("Country" ++ " code.")]
    rfl
  · intro s e h
    simp [Country.getstored, h]

/-- Witness for C4 at concrete inputs. -/
theorem getstored_null_and_unknown_witness :
    Language.getstored (.str "xx") =
      .error (.TMDBLocaleError (unknownCodeMsg (.str "xx") "Language")) ∧
    unknownCodeMsg (.str "xx") "Language" =
      sq ++ "xx" ++ sq ++ " is not a known valid Language code." ∧
    Language.getstored (.str "en") = .ok (some enLanguage) ∧
    Country.getstored (.str "xx") =
      .error (.TMDBLocaleError (unknownCodeMsg (.str "xx") "Country")) ∧
    Country.getstored (.str "us") = .ok (some usCountry) :=
  ⟨getstored_null_and_unknown.2.2.1 "xx" (by decide) (by rfl),
    getstored_null_and_unknown.2.2.2.1 "xx",
    getstored_null_and_unknown.2.2.2.2.1 "en" enLanguage (by rfl),
    getstored_null_and_unknown.2.2.2.2.2.1 "xx" (by decide) (by rfl),
    getstored_null_and_unknown.2.2.2.2.2.2.2 "us" usCountry (by rfl)⟩

/-- Claim C5: for a registered key, lookup of the key, of its upper-cased
form and of its lower-cased form all return the same stored entity,
because registration folds keys to lower case and lookup folds the query
key. -/
theorem getstored_case_insensitive :
    (∀ (s : String) (e : Language),
      List.lookup (pyLower s) languageStored = some e →
        Language.getstored (.str s) = .ok (some e) ∧
        Language.getstored (.str (pyUpper s)) = .ok (some e) ∧
        Language.getstored (.str (pyLower s)) = .ok (some e)) ∧
    (∀ (s : String) (e : Country),
      List.lookup (pyLower s) countryStored = some e →
        Country.getstored (.str s) = .ok (some e) ∧
        Country.getstored (.str (pyUpper s)) = .ok (some e) ∧
        Country.getstored (.str (pyLower s)) = .ok (some e)) := by
  constructor
  · intro s e h
    refine ⟨?_, ?_, ?_⟩ <;>
      simp [Language.getstored, pyLower_pyUpper, pyLower_pyLower, h]
  · intro s e h
    refine ⟨?_, ?_, ?_⟩ <;>
      simp [Country.getstored, pyLower_pyUpper, pyLower_pyLower, h]

/-- Witness for C5 at concrete inputs. -/
theorem getstored_case_insensitive_witness :
    Language.getstored (.str "Fr") = .ok (some frLanguage) ∧
    Language.getstored (.str (pyUpper "Fr")) = .ok (some frLanguage) ∧
    Language.getstored (.str (pyLower "Fr")) = .ok (some frLanguage) ∧
    Country.getstored (.str "us") = .ok (some usCountry) ∧
    Country.getstored (.str (pyUpper "us")) = .ok (some usCountry) :=
  ⟨(getstored_case_insensitive.1 "Fr" frLanguage (by rfl)).1,
    (getstored_case_insensitive.1 "Fr" frLanguage (by rfl)).2.1,
    (getstored_case_insensitive.1 "Fr" frLanguage (by rfl)).2.2,
    (getstored_case_insensitive.2 "us" usCountry (by rfl)).1,
    (getstored_case_insensitive.2 "us" usCountry (by rfl)).2.1⟩

/-- Claim C10: every non-null key without a registered lower-cased string
form, including non-string values such as ints and registry entities,
makes `getstored` fail with the `TMDBLocaleError` (never a type or
attribute error), because the bare `except:` converts every failure of
`key.lower()` or of the dict access. -/
theorem getstored_bare_except :
    (∀ k : Key, k ≠ .pynone → k.hasLower = false →
      Language.getstored k =
        .error (.TMDBLocaleError (unknownCodeMsg k "Language")) ∧
      Country.getstored k =
        .error (.TMDBLocaleError (unknownCodeMsg k "Country"))) ∧
    (∀ s : String, List.lookup (pyLower s) languageStored = none →
      Language.getstored (.str s) =
        .error (.TMDBLocaleError (unknownCodeMsg (.str s) "Language"))) ∧
    (∀ s : String, List.lookup (pyLower s) countryStored = none →
      Country.getstored (.str s) =
        .error (.TMDBLocaleError (unknownCodeMsg (.str s) "Country"))) := by
  refine ⟨?_, ?_, ?_⟩
  · intro k hk hl
    cases k with
    | pynone => exact absurd rfl hk
    | str s => exact absurd hl (by simp [Key.hasLower])
    | lang l => exact ⟨rfl, rfl⟩
    | ctry c => exact ⟨rfl, rfl⟩
    | int n => exact ⟨rfl, rfl⟩
  · intro s h
    simp [Language.getstored, h]
  · intro s h
    simp [Country.getstored, h]

/-- Witness for C10 at concrete inputs. -/
theorem getstored_bare_except_witness :
    Language.getstored (.int 5) =
      .error (.TMDBLocaleError (unknownCodeMsg (.int 5) "Language")) ∧
    Country.getstored (.lang enLanguage) =
      .error (.TMDBLocaleError (unknownCodeMsg (.lang enLanguage) "Country")) ∧
    Language.getstored (.str "qq") =
      .error (.TMDBLocaleError (unknownCodeMsg (.str "qq") "Language")) :=
  ⟨(getstored_bare_except.1 (.int 5) (by decide) rfl).1,
    (getstored_bare_except.1 (.lang enLanguage) (fun h => by cases h) rfl).2,
    getstored_bare_except.2.1 "qq" (by rfl)⟩

/-- Claim C6: `decode` passes already-text values through unchanged and
swallows `UnicodeEncodeError`, returning the input; `encode` passes
non-text values through unchanged and swallows `UnicodeDecodeError`; all
other codec failures propagate. -/
theorem encode_decode_contract :
    (∀ (cm : CodecModel) (l : Locale) (s : String),
      Locale.decode cm l (.text s) = .ok (.text s)) ∧
    (∀ (cm : CodecModel) (l : Locale) (b : List Nat),
      cm.dec l.encoding b = .error .unicodeEncodeError →
        Locale.decode cm l (.bytes b) = .ok (.bytes b)) ∧
    (∀ (cm : CodecModel) (l : Locale) (b : List Nat) (e : CodecExn),
      e ≠ .unicodeEncodeError → cm.dec l.encoding b = .error e →
        Locale.decode cm l (.bytes b) = .error e) ∧
    (∀ (cm : CodecModel) (l : Locale) (b : List Nat),
      Locale.encode cm l (.bytes b) = .ok (.bytes b)) ∧
    (∀ (cm : CodecModel) (l : Locale) (t : Nat),
      Locale.encode cm l (.other t) = .ok (.other t)) ∧
    (∀ (cm : CodecModel) (l : Locale) (s : String),
      cm.enc l.encoding s = .error .unicodeDecodeError →
        Locale.encode cm l (.text s) = .ok (.text s)) ∧
    (∀ (cm : CodecModel) (l : Locale) (s : String) (e : CodecExn),
      e ≠ .unicodeDecodeError → cm.enc l.encoding s = .error e →
        Locale.encode cm l (.text s) = .error e) := by
  refine ⟨fun cm l s => rfl, ?_, ?_, fun cm l b => rfl, fun cm l t => rfl,
    ?_, ?_⟩
  · intro cm l b h
    simp [Locale.decode, h]
  · intro cm l b e hne h
    cases e with
    | unicodeEncodeError => exact absurd rfl hne
    | unicodeDecodeError => simp [Locale.decode, h]
    | otherError => simp [Locale.decode, h]
  · intro cm l s h
    simp [Locale.encode, h]
  · intro cm l s e hne h
    cases e with
    | unicodeDecodeError => exact absurd rfl hne
    | unicodeEncodeError => simp [Locale.encode, h]
    | otherError => simp [Locale.encode, h]

/-- Witness for C6 at concrete inputs. -/
theorem encode_decode_contract_witness :
    Locale.decode cmHard locW (.text "abc") = .ok (.text "abc") ∧
    Locale.decode cmSwallow locW (.bytes [200]) = .ok (.bytes [200]) ∧
    Locale.decode cmHard locW (.bytes [200]) = .error .otherError ∧
    Locale.encode cmSwallow locW (.bytes [200]) = .ok (.bytes [200]) ∧
    Locale.encode cmSwallow locW (.other 0) = .ok (.other 0) ∧
    Locale.encode cmSwallow locW (.text "abc") = .ok (.text "abc") ∧
    Locale.encode cmHard locW (.text "abc") = .error .otherError :=
  ⟨encode_decode_contract.1 cmHard locW "abc",
    encode_decode_contract.2.1 cmSwallow locW [200] rfl,
    encode_decode_contract.2.2.1 cmHard locW [200] .otherError
      (by decide) rfl,
    encode_decode_contract.2.2.2.1 cmSwallow locW [200],
    encode_decode_contract.2.2.2.2.1 cmSwallow locW 0,
    encode_decode_contract.2.2.2.2.2.1 cmSwallow locW "abc" rfl,
    encode_decode_contract.2.2.2.2.2.2 cmHard locW "abc" .otherError
      (by decide) rfl⟩

/-- Claim C7: `set_locale` resolves a missing language or country from the
current locale when one exists, else from the host locale when it parses
as `language_COUNTRY`, else from the hard-coded `("en", "US")`; a
supplied argument overrides the base; with no arguments on a fresh
process with no discoverable host locale it installs a locale whose
language and country are `en` and `US`. -/
theorem set_locale_resolution :
    (∀ (host : Host) (cur : Option Locale)
        (language country : Option String) (ft : Bool),
      set_locale host cur language country ft =
        Locale.init (.str (specResolve host cur language country).1)
          (.str (specResolve host cur language country).2) host.sysenc) ∧
    (set_locale hostFresh none none none false).toOption.map
      (fun l => (strOfOptLanguage l.language, strOfOptCountry l.country)) =
      some ("en", "US") := by
  constructor
  · intro host cur language country ft
    cases language <;> cases country <;>
      simp [set_locale, specResolve, truthyOptStr]
  · rfl

/-- Witness for C7 at concrete inputs. -/
theorem set_locale_resolution_witness :
    set_locale hostFresh (some locEnUS) (some "de") none false =
      Locale.init
        (.str (specResolve hostFresh (some locEnUS) (some "de") none).1)
        (.str (specResolve hostFresh (some locEnUS) (some "de") none).2)
        hostFresh.sysenc :=
  set_locale_resolution.1 hostFresh (some locEnUS) (some "de") none false

/-- Claim C1 claims that `get_locale` with exactly one supplied argument
returns a locale combining the supplied value with the other field of the
current locale without raising; the code instead raises a
`TMDBLocaleError`, because the `elif` ladder passes the stored entity
reference (which has no `lower()` method) back into `getstored`.  This
theorem evaluates the code at the failing inputs: after
`set_locale("en", "US")` on a fresh host, `get_locale("fr")` raises the
error naming `US`, and `get_locale(country="CA")` the one naming `en`. -/
theorem get_locale_single_argument_raises :
    set_locale hostFresh none (some "en") (some "US") false = .ok locEnUS ∧
    get_locale hostFresh (some locEnUS) (.str "fr") (.int (-1)) =
      .error (.TMDBLocaleError (unknownCodeMsg (.ctry usCountry) "Country")) ∧
    unknownCodeMsg (.ctry usCountry) "Country" =
      sq ++ "US" ++ sq ++ " is not a known valid Country code." ∧
    get_locale hostFresh (some locEnUS) (.int (-1)) (.str "CA") =
      .error (.TMDBLocaleError (unknownCodeMsg (.lang enLanguage) "Language")) ∧
    unknownCodeMsg (.lang enLanguage) "Language" =
      sq ++ "en" ++ sq ++ " is not a known valid Language code." ∧
    get_locale hostFresh (some locEnUS) (.int (-1)) (.int (-1)) =
      .ok locEnUS := by
  refine ⟨rfl, rfl, rfl, rfl, rfl, rfl⟩

/-- Claim C2 claims that once construction has finished, every attribute
set or delete on a registry entity raises the modification error; the
code never raises it, because the guard probes an attribute literally
named `__immutable` while the slot it means to read was name-mangled to
`_LocaleBase__immutable`.  This theorem evaluates the code at the failing
input: after `Language("en", "eng", "English")` completes, assigning
`englishname` succeeds and changes the value, and deleting it succeeds
too. -/
theorem entity_mutation_unchecked :
    mkLanguageObj "en" "eng" "English" = .ok enObjAttrs ∧
    List.lookup "__immutable" enObjAttrs = none ∧
    List.lookup "_LocaleBase__immutable" enObjAttrs = some (.bool true) ∧
    setattrLB "Language" enObjAttrs "englishname" (.str "Modified") =
      .ok (("englishname", .str "Modified") :: enObjAttrs) ∧
    List.lookup "englishname" (("englishname", PyVal.str "Modified") :: enObjAttrs) =
      some (.str "Modified") ∧
    List.lookup "englishname" enObjAttrs = some (.str "English") ∧
    delattrLB "Language" enObjAttrs "englishname" =
      .ok [("_LocaleBase__immutable", .bool true),
        ("ISO639_2", .str "eng"), ("ISO639_1", .str "en")] := by
  refine ⟨rfl, rfl, rfl, rfl, rfl, rfl, rfl⟩

end Locales
